import Mathlib

/-
  Verification of the solar-farm suitability scoring pipeline (app.py).

  The pipeline is embedded shallowly:
  * raster cell values are exact rationals (the cell values that actually
    arise are sums of 0, 0.4, 0.6 and 1, all of which the double-precision
    arithmetic of the source also treats exactly, so nothing is lost);
  * the GEE where-overwrite combinator is the function whereW below;
  * aggregation dictionaries returned by the backend are association lists
    from statistic names to optional rationals (a value of none models a
    JSON null stored under a present key);
  * the rounding of the host language is round-half-to-even, modelled by
    roundHalfEven.
-/

namespace SolarFarm

/-- The GEE raster combinator image.where(cond, val): keeps the base value
    where the condition is false and overwrites with val where it is true.
    All classification rasters in app.py are built by chaining this on a
    zero-initialised image. -/
def whereW (base : ℚ) (cond : Prop) [Decidable cond] (val : ℚ) : ℚ :=
  if cond then val else base

/-- Elevation contribution (app.py lines 72-74): 1 where
    elevation.lt(2000) and elevation.gt(30), else the zero base. -/
def dem_class (elevation : ℚ) : ℚ :=
  whereW 0 (elevation < 2000 ∧ 30 < elevation) 1

/-- Slope contribution (app.py lines 88-94): the ordered overwrite chain
    slope.lt(5) gives 1, then slope.gt(5) and elevation.lt(10) gives 0.6,
    then slope.gt(10) gives 0.4, applied to the zero base. -/
def slope_class (slope elevation : ℚ) : ℚ :=
  whereW (whereW (whereW 0 (slope < 5) 1)
                 (5 < slope ∧ elevation < 10) (3/5))
         (10 < slope) (2/5)

/-- Land-cover contribution (app.py lines 112-114): 1 where the WorldCover
    class code is 20 (shrubland) or 60 (barren/sparse vegetation). -/
def class_lulc (code : ℤ) : ℚ :=
  whereW 0 (code = 20 ∨ code = 60) 1

/-- The summed raster (app.py line 118):
    dem_class.add(slope_class).add(class_lulc), cell-wise. -/
def suitability_raw (elevation slope : ℚ) (code : ℤ) : ℚ :=
  dem_class elevation + slope_class slope elevation + class_lulc code

/-- The reclassifier (app.py lines 121-124): the ordered overwrite chain
    raw.eq(3) gives 1, raw.eq(2.6) gives 2, raw.eq(2.4) gives 3,
    raw.lt(2.4) gives 4, applied to the zero base. -/
def reclassify (raw : ℚ) : ℚ :=
  whereW (whereW (whereW (whereW 0 (raw = 3) 1)
                         (raw = 13/5) 2)
                 (raw = 12/5) 3)
         (raw < 12/5) 4

/-- The mask (app.py line 127): updateMask(suitability.gte(1)) drops every
    cell whose class value is below 1; none models a masked-out cell. -/
def apply_mask (v : ℚ) : Option ℚ :=
  if 1 ≤ v then some v else none

/-- Priority reading of the slope rules, later rule first: the semantics
    the spec ascribes to the overwrite chain (last matching writer wins,
    default 0). -/
def slope_class_priority (slope elevation : ℚ) : ℚ :=
  if 10 < slope then 2/5
  else if 5 < slope ∧ elevation < 10 then 3/5
  else if slope < 5 then 1
  else 0

lemma dem_class_mem (e : ℚ) : dem_class e = 0 ∨ dem_class e = 1 := by
  unfold dem_class whereW
  split_ifs <;> simp

lemma slope_class_mem (s e : ℚ) :
    slope_class s e = 0 ∨ slope_class s e = 2/5 ∨
    slope_class s e = 3/5 ∨ slope_class s e = 1 := by
  unfold slope_class whereW
  split_ifs <;> simp

lemma class_lulc_mem (c : ℤ) : class_lulc c = 0 ∨ class_lulc c = 1 := by
  unfold class_lulc whereW
  split_ifs <;> simp

/-- C1: on every cell of the summed raster the reclassifier sends a raw
    score equal to exactly 3 to class 1, exactly 2.6 to class 2, exactly
    2.4 to class 3 and anything strictly below 2.4 to class 4, by exact
    equality with no tolerance; and every achievable raw sum that is not
    exactly 3, 2.6 or 2.4 lands in class 4. -/
theorem reclassify_exact_on_sums (e s : ℚ) (c : ℤ) :
    (suitability_raw e s c = 3 → reclassify (suitability_raw e s c) = 1) ∧
    (suitability_raw e s c = 13/5 → reclassify (suitability_raw e s c) = 2) ∧
    (suitability_raw e s c = 12/5 → reclassify (suitability_raw e s c) = 3) ∧
    (suitability_raw e s c < 12/5 → reclassify (suitability_raw e s c) = 4) ∧
    (suitability_raw e s c ≠ 3 ∧ suitability_raw e s c ≠ 13/5 ∧
       suitability_raw e s c ≠ 12/5 → reclassify (suitability_raw e s c) = 4) := by
  have hd := dem_class_mem e
  have hs := slope_class_mem s e
  have hl := class_lulc_mem c
  unfold suitability_raw
  rcases hd with h1 | h1 <;> rcases hs with h2 | h2 | h2 | h2 <;>
    rcases hl with h3 | h3 <;> rw [h1, h2, h3] <;>
    norm_num [reclassify, whereW]

/-- C1 witness: a cell meeting all three criteria has raw score exactly 3
    and is reclassified to class 1. -/
theorem reclassify_exact_on_sums_witness :
    suitability_raw 100 3 20 = 3 ∧ reclassify (suitability_raw 100 3 20) = 1 :=
  ⟨by norm_num [suitability_raw, dem_class, slope_class, class_lulc, whereW],
   (reclassify_exact_on_sums 100 3 20).1
     (by norm_num [suitability_raw, dem_class, slope_class, class_lulc, whereW])⟩

/-- C2: the slope contribution is the listed overwrite chain on a
    zero-initialised raster, so the last matching rule wins: it agrees
    everywhere with the priority reading taken from the last rule
    backwards; in particular slope above 10 with elevation below 10 gets
    0.4, and slope in the band from 5 to 10 with elevation at least 10
    gets the untouched default 0. -/
theorem slope_rules_last_writer_wins (s e : ℚ) :
    slope_class s e = slope_class_priority s e ∧
    (10 < s ∧ e < 10 → slope_class s e = 2/5) ∧
    (5 ≤ s ∧ s ≤ 10 ∧ 10 ≤ e → slope_class s e = 0) := by
  refine ⟨?_, ?_, ?_⟩
  · unfold slope_class slope_class_priority whereW
    split_ifs <;> rfl
  · rintro ⟨h10, _⟩
    unfold slope_class whereW
    rw [if_pos h10]
  · rintro ⟨h5, h10, he⟩
    unfold slope_class whereW
    rw [if_neg (by linarith), if_neg (by rintro ⟨_, h⟩; linarith),
        if_neg (by linarith)]

/-- C2 witness: a cell with slope 12 and elevation 5 matches both the 0.6
    rule and the later 0.4 rule and receives 0.4; a cell with slope 7 and
    elevation 50 matches no rule and stays 0. -/
theorem slope_rules_last_writer_wins_witness :
    slope_class 12 5 = 2/5 ∧ slope_class 7 50 = 0 :=
  ⟨(slope_rules_last_writer_wins 12 5).2.1 ⟨by norm_num, by norm_num⟩,
   (slope_rules_last_writer_wins 7 50).2.2 ⟨by norm_num, by norm_num, by norm_num⟩⟩

/-- C8: every achievable raw sum (elevation contribution in 0 or 1, slope
    contribution in 0, 0.4, 0.6 or 1, land-cover contribution in 0 or 1)
    is reclassified to a class value at least 1, so the gte(1) mask keeps
    every achievable cell and the masked branch is unreachable. -/
theorem mask_keeps_all_achievable (e s : ℚ) (c : ℤ) :
    1 ≤ reclassify (suitability_raw e s c) ∧
    apply_mask (reclassify (suitability_raw e s c)) =
      some (reclassify (suitability_raw e s c)) := by
  have hd := dem_class_mem e
  have hs := slope_class_mem s e
  have hl := class_lulc_mem c
  unfold suitability_raw
  rcases hd with h1 | h1 <;> rcases hs with h2 | h2 | h2 | h2 <;>
    rcases hl with h3 | h3 <;> rw [h1, h2, h3] <;>
    norm_num [reclassify, apply_mask, whereW]

/-- Round-half-to-even on rationals: the rounding of the host language
    (round with no second argument). -/
def roundHalfEven (q : ℚ) : ℤ :=
  if q - ⌊q⌋ < 1/2 then ⌊q⌋
  else if 1/2 < q - ⌊q⌋ then ⌊q⌋ + 1
  else if Even ⌊q⌋ then ⌊q⌋ else ⌊q⌋ + 1

/-- Round to n decimal places, half to even: the rounding of the host
    language (round with a second argument n). -/
def pyRound (n : ℕ) (q : ℚ) : ℚ :=
  (roundHalfEven (q * 10 ^ n) : ℚ) / 10 ^ n

/-- An aggregation dictionary returned by the backend: statistic name to
    value, where a stored none models a JSON null under a present key. -/
abbrev StatsDict := List (String × Option ℚ)

/-- Dictionary access with a default (dict.get with two arguments). -/
def dict_get (d : StatsDict) (k : String) (dflt : Option ℚ) : Option ℚ :=
  (d.lookup k).getD dflt

/-- Dictionary access without a default (dict.get with one argument):
    an absent key yields none, which serialises to null. -/
def dict_get_opt (d : StatsDict) (k : String) : Option ℚ :=
  (d.lookup k).getD none

/-- One chart row value (app.py lines 163-167):
    area_val is total_area_by_class.get(name, 0), and the reported Area is
    round(area_val, 2) when area_val is not null, else 0. -/
def chart_area (d : StatsDict) (name : String) : ℚ :=
  match dict_get d name (some 0) with
  | some v => pyRound 2 v
  | none => 0

/-- A min-max statistic field of the response (app.py lines 259-262):
    stats.get(key) with no default. -/
def response_stat (stats : StatsDict) (key : String) : Option ℚ :=
  dict_get_opt stats key

/-- app.py line 173: total_area_by_class.get('Most Suitable', 0). -/
def most_suitable_area_sqkm (d : StatsDict) : Option ℚ :=
  dict_get d "Most Suitable" (some 0)

/-- app.py lines 175-176: area times 1.7 times 0.85 times 300 when the
    area is not null, else 0, then rounded to 3 decimals. -/
def power_generation_mwh (d : StatsDict) : ℚ :=
  pyRound 3 (match most_suitable_area_sqkm d with
    | some a => a * (17/10) * (17/20) * 300
    | none => 0)

/-- app.py lines 181-182: area times 1.7 times 0.85 times 1000000 when the
    area is not null, else 0, then rounded to the nearest integer. -/
def num_panels (d : StatsDict) : ℤ :=
  roundHalfEven (match most_suitable_area_sqkm d with
    | some a => a * (17/10) * (17/20) * 1000000
    | none => 0)

lemma roundHalfEven_intCast (z : ℤ) : roundHalfEven (z : ℚ) = z := by
  unfold roundHalfEven
  rw [Int.floor_intCast]
  norm_num

/-- C3: the reported energy yield is the Most-Suitable area times 1.7
    times 0.85 times 300, rounded to 3 decimals; it is 0 when the area is
    zero, absent or null; and an area of exactly 1 yields 433.5. -/
theorem power_generation_formula (d : StatsDict) (a : ℚ) :
    (most_suitable_area_sqkm d = some a →
      power_generation_mwh d = pyRound 3 (a * (17/10) * (17/20) * 300)) ∧
    (most_suitable_area_sqkm d = some 0 → power_generation_mwh d = 0) ∧
    (most_suitable_area_sqkm d = none → power_generation_mwh d = 0) ∧
    (most_suitable_area_sqkm d = some 1 → power_generation_mwh d = 867/2) := by
  refine ⟨fun h => ?_, fun h => ?_, fun h => ?_, fun h => ?_⟩
  · unfold power_generation_mwh
    rw [h]
  · unfold power_generation_mwh
    rw [h]
    show pyRound 3 (0 * (17/10) * (17/20) * 300) = 0
    norm_num [pyRound]
    exact_mod_cast roundHalfEven_intCast 0
  · unfold power_generation_mwh
    rw [h]
    show pyRound 3 0 = 0
    norm_num [pyRound]
    exact_mod_cast roundHalfEven_intCast 0
  · unfold power_generation_mwh
    rw [h]
    show pyRound 3 (1 * (17/10) * (17/20) * 300) = 867/2
    have h1 : (1 : ℚ) * (17/10) * (17/20) * 300 * 10 ^ 3 = ((433500 : ℤ) : ℚ) := by
      norm_num
    unfold pyRound
    rw [h1, roundHalfEven_intCast]
    norm_num

/-- C3 witness: a backend dictionary reporting a Most-Suitable area of
    exactly 1 square kilometre yields 433.5 MWh. -/
theorem power_generation_formula_witness :
    most_suitable_area_sqkm [("Most Suitable", some 1)] = some 1 ∧
    power_generation_mwh [("Most Suitable", some 1)] = 867/2 :=
  ⟨rfl, (power_generation_formula [("Most Suitable", some 1)] 1).2.2.2 rfl⟩

/-- C4: the reported panel count is the Most-Suitable area times 1.7
    times 0.85 times 1000000 (a scale constant of 1000000 where the MWh
    formula uses 300), rounded half-to-even to the nearest integer; an
    area of exactly 1 gives 1445000 panels. -/
theorem num_panels_formula (d : StatsDict) (a : ℚ) :
    (most_suitable_area_sqkm d = some a →
      num_panels d = roundHalfEven (a * (17/10) * (17/20) * 1000000)) ∧
    (most_suitable_area_sqkm d = some 1 → num_panels d = 1445000) := by
  constructor
  · intro h
    unfold num_panels
    rw [h]
  · intro h
    unfold num_panels
    rw [h]
    show roundHalfEven (1 * (17/10) * (17/20) * 1000000) = 1445000
    have h1 : (1 : ℚ) * (17/10) * (17/20) * 1000000 = ((1445000 : ℤ) : ℚ) := by
      norm_num
    rw [h1, roundHalfEven_intCast]

/-- C4 witness: a backend dictionary reporting a Most-Suitable area of
    exactly 1 square kilometre gives 1445000 panels. -/
theorem num_panels_formula_witness :
    most_suitable_area_sqkm [("Most Suitable", some 1)] = some 1 ∧
    num_panels [("Most Suitable", some 1)] = 1445000 :=
  ⟨rfl, (num_panels_formula [("Most Suitable", some 1)] 1).2 rfl⟩

/-- C7 counterexample: an aggregation dictionary without the key
    elevation_min (for instance the empty result of an empty AOI) makes
    the elevation_min response field null, not 0: the stat fields use
    dict.get with no default, so a missing statistic key propagates null
    instead of defaulting to 0. -/
theorem response_stat_missing_is_null :
    response_stat ([] : StatsDict) "elevation_min" = none ∧
    response_stat ([] : StatsDict) "elevation_min" ≠ some 0 := by
  constructor
  · rfl
  · intro h
    simp [response_stat, dict_get_opt] at h

/-- C7 amended: a missing or null per-class area value defaults to 0 in
    the chart data, but a missing min-max statistic key (elevation or
    slope) is propagated as null in the response rather than defaulting
    to 0; neither case fails the request. -/
theorem area_defaults_stat_nulls (areas stats : StatsDict) (name key : String) :
    (areas.lookup name = none → chart_area areas name = 0) ∧
    (areas.lookup name = some none → chart_area areas name = 0) ∧
    (stats.lookup key = none → response_stat stats key = none) := by
  refine ⟨fun h => ?_, fun h => ?_, fun h => ?_⟩
  · unfold chart_area dict_get
    rw [h]
    show pyRound 2 0 = 0
    norm_num [pyRound]
    exact_mod_cast roundHalfEven_intCast 0
  · unfold chart_area dict_get
    rw [h]
    rfl
  · unfold response_stat dict_get_opt
    rw [h]
    rfl

/-- C7 amended witness: on empty aggregation dictionaries the chart area
    is 0 while the elevation_min field is null. -/
theorem area_defaults_stat_nulls_witness :
    chart_area ([] : StatsDict) "Most Suitable" = 0 ∧
    response_stat ([] : StatsDict) "slope_min" = none :=
  ⟨(area_defaults_stat_nulls [] [] "Most Suitable" "slope_min").1 rfl,
   (area_defaults_stat_nulls [] [] "Most Suitable" "slope_min").2.2 rfl⟩

lemma roundHalfEven_bounds (q : ℚ) :
    ⌊q⌋ ≤ roundHalfEven q ∧ roundHalfEven q ≤ ⌊q⌋ + 1 := by
  unfold roundHalfEven
  split_ifs <;> omega

lemma roundHalfEven_mono {a b : ℚ} (h : a ≤ b) :
    roundHalfEven a ≤ roundHalfEven b := by
  have hf : ⌊a⌋ ≤ ⌊b⌋ := Int.floor_le_floor h
  rcases eq_or_lt_of_le hf with heq | hlt
  · unfold roundHalfEven
    rw [← heq]
    have hr : a - ⌊a⌋ ≤ b - ⌊a⌋ := by linarith
    split_ifs <;> first | omega | linarith
  · calc roundHalfEven a ≤ ⌊a⌋ + 1 := (roundHalfEven_bounds a).2
      _ ≤ ⌊b⌋ := by omega
      _ ≤ roundHalfEven b := (roundHalfEven_bounds b).1

lemma pyRound_mono (n : ℕ) {a b : ℚ} (h : a ≤ b) :
    pyRound n a ≤ pyRound n b := by
  unfold pyRound
  have h10 : (0 : ℚ) < 10 ^ n := by positivity
  have h1 : a * 10 ^ n ≤ b * 10 ^ n := by
    exact mul_le_mul_of_nonneg_right h h10.le
  have h3 : ((roundHalfEven (a * 10 ^ n) : ℤ) : ℚ) ≤
      ((roundHalfEven (b * 10 ^ n) : ℤ) : ℚ) := by
    exact_mod_cast roundHalfEven_mono h1
  gcongr

/-- C9: the energy yield and the panel count are 0 at a Most-Suitable
    area of 0, and both are monotonically non-decreasing in the
    Most-Suitable area, through the rounding steps included. -/
theorem yield_and_panels_monotone (d d' : StatsDict) (a b : ℚ) :
    (most_suitable_area_sqkm d = some a → most_suitable_area_sqkm d' = some b →
      a ≤ b →
      power_generation_mwh d ≤ power_generation_mwh d' ∧
        num_panels d ≤ num_panels d') ∧
    (most_suitable_area_sqkm d = some 0 →
      power_generation_mwh d = 0 ∧ num_panels d = 0) := by
  constructor
  · intro ha hb hab
    have hp : a * (17/10) * (17/20) * 300 ≤ b * (17/10) * (17/20) * 300 := by
      nlinarith
    have hn : a * (17/10) * (17/20) * 1000000 ≤ b * (17/10) * (17/20) * 1000000 := by
      nlinarith
    constructor
    · unfold power_generation_mwh
      rw [ha, hb]
      exact pyRound_mono 3 hp
    · unfold num_panels
      rw [ha, hb]
      exact roundHalfEven_mono hn
  · intro h
    constructor
    · exact (power_generation_formula d a).2.1 h
    · unfold num_panels
      rw [h]
      show roundHalfEven (0 * (17/10) * (17/20) * 1000000) = 0
      have h0 : (0 : ℚ) * (17/10) * (17/20) * 1000000 = ((0 : ℤ) : ℚ) := by norm_num
      rw [h0, roundHalfEven_intCast]

/-- C9 witness: with Most-Suitable areas 1 and 2 the yield and panel
    count do not decrease, and at area 0 both are 0. -/
theorem yield_and_panels_monotone_witness :
    (power_generation_mwh [("Most Suitable", some 1)] ≤
       power_generation_mwh [("Most Suitable", some 2)] ∧
     num_panels [("Most Suitable", some 1)] ≤
       num_panels [("Most Suitable", some 2)]) ∧
    (power_generation_mwh [("Most Suitable", some 0)] = 0 ∧
     num_panels [("Most Suitable", some 0)] = 0) :=
  ⟨(yield_and_panels_monotone [("Most Suitable", some 1)]
      [("Most Suitable", some 2)] 1 2).1 rfl rfl (by norm_num),
   (yield_and_panels_monotone [("Most Suitable", some 0)]
      [("Most Suitable", some 0)] 0 0).2 rfl⟩

/-- The zoom heuristic (app.py lines 238-249) on the bounding-box deltas.
    For a positive rational x, Int.log 2 x is the floor of the base-2
    logarithm of x, so this embeds
    max(1, min(floor(min(log2(360/dlon), log2(180/dlat))) + 1, 16)),
    with the default of 10 when either delta is not positive; the
    agreement with the real-valued logarithm is proved below. -/
def map_zoom (delta_lon delta_lat : ℚ) : ℤ :=
  if 0 < delta_lon ∧ 0 < delta_lat then
    max 1 (min (min (Int.log 2 (360 / delta_lon)) (Int.log 2 (180 / delta_lat)) + 1) 16)
  else 10

lemma int_log_ratCast (b : ℕ) (hb : 1 < b) (q : ℚ) (hq : 0 < q) :
    Int.log b ((q : ℝ)) = Int.log b q := by
  have hq' : (0 : ℝ) < (q : ℝ) := by exact_mod_cast hq
  have cast_zpow : ∀ L : ℤ, (((b : ℚ) ^ L : ℚ) : ℝ) = (b : ℝ) ^ L := by
    intro L
    push_cast
    ring
  apply le_antisymm
  · rw [← Int.zpow_le_iff_le_log hb hq]
    have h1 : ((b : ℝ)) ^ Int.log b ((q : ℝ)) ≤ (q : ℝ) :=
      Int.zpow_log_le_self hb hq'
    rw [← cast_zpow] at h1
    exact_mod_cast h1
  · rw [← Int.zpow_le_iff_le_log hb hq']
    have h1 : ((b : ℚ)) ^ Int.log b q ≤ q := Int.zpow_log_le_self hb hq
    rw [← cast_zpow]
    exact_mod_cast h1

lemma floor_min_real (x y : ℝ) : ⌊min x y⌋ = min ⌊x⌋ ⌊y⌋ :=
  Int.floor_mono.map_min

/-- C5: for positive bounding-box deltas the zoom is
    max(1, min(floor(min(log2(360/dlon), log2(180/dlat))) + 1, 16)),
    stated with the real base-2 logarithm; when either delta is not
    positive the zoom defaults to 10; and the global extent
    dlon = 360, dlat = 180 gives zoom 1. -/
theorem map_zoom_formula (dlon dlat : ℚ) :
    ((dlon ≤ 0 ∨ dlat ≤ 0) → map_zoom dlon dlat = 10) ∧
    (0 < dlon → 0 < dlat →
      map_zoom dlon dlat =
        max 1 (min (⌊min (Real.logb 2 ((360 / dlon : ℚ) : ℝ))
                         (Real.logb 2 ((180 / dlat : ℚ) : ℝ))⌋ + 1) 16)) ∧
    map_zoom 360 180 = 1 := by
  refine ⟨fun h => ?_, fun h1 h2 => ?_, ?_⟩
  · unfold map_zoom
    rw [if_neg]
    rintro ⟨hl, hr⟩
    rcases h with h | h <;> linarith
  · have hl : (0 : ℚ) < 360 / dlon := by positivity
    have hr : (0 : ℚ) < 180 / dlat := by positivity
    have hl' : (0 : ℝ) ≤ ((360 / dlon : ℚ) : ℝ) := by exact_mod_cast hl.le
    have hr' : (0 : ℝ) ≤ ((180 / dlat : ℚ) : ℝ) := by exact_mod_cast hr.le
    have e2 : ((2 : ℝ)) = ((2 : ℕ) : ℝ) := by norm_num
    have el : ⌊Real.logb 2 ((360 / dlon : ℚ) : ℝ)⌋ = Int.log 2 (360 / dlon : ℚ) := by
      rw [e2, Real.floor_logb_natCast hl', int_log_ratCast 2 one_lt_two _ hl]
    have er : ⌊Real.logb 2 ((180 / dlat : ℚ) : ℝ)⌋ = Int.log 2 (180 / dlat : ℚ) := by
      rw [e2, Real.floor_logb_natCast hr', int_log_ratCast 2 one_lt_two _ hr]
    unfold map_zoom
    rw [if_pos ⟨h1, h2⟩, floor_min_real, el, er]
  · unfold map_zoom
    rw [if_pos ⟨by norm_num, by norm_num⟩]
    norm_num [Int.log_one_right]

/-- C5 witness: a degenerate delta gives the default zoom 10, and the
    global extent gives zoom 1. -/
theorem map_zoom_formula_witness :
    map_zoom (-1) 5 = 10 ∧ map_zoom 360 180 = 1 :=
  ⟨(map_zoom_formula (-1) 5).1 (Or.inl (by norm_num)),
   (map_zoom_formula 360 180).2.2⟩

/-- One linear ring of AOI coordinates: a list of (lon, lat) pairs. -/
abbrev Ring := List (ℚ × ℚ)

/-- The request handler skeleton (app.py lines 46-54): the backend
    initialisation sentinel is checked first and returns status 500 with
    no backend calls; then a missing or empty aoi_coordinates value
    returns status 400 with no backend calls; otherwise the remaining
    pipeline (the try block) runs on the coordinates and produces the
    final status together with the list of remote backend calls issued. -/
def perform_analysis_route (ee_initialized : Bool)
    (aoi_coordinates : Option (List Ring))
    (pipeline : List Ring → Nat × List String) : Nat × List String :=
  if ee_initialized = false then (500, [])
  else
    match aoi_coordinates with
    | none => (400, [])
    | some rings => if rings.isEmpty then (400, []) else pipeline rings

/-- The truthiness test of the handler guard: aoi_coordinates is absent
    or empty. -/
def aoi_is_falsy : Option (List Ring) → Bool
  | none => true
  | some rings => rings.isEmpty

/-- C6: when the backend is initialised, a request whose aoi_coordinates
    value is absent or empty gets the client validation error 400 and no
    remote backend call is issued, whatever the rest of the pipeline
    would do. -/
theorem missing_aoi_client_error (aoi : Option (List Ring))
    (pipeline : List Ring → Nat × List String)
    (h : aoi_is_falsy aoi = true) :
    perform_analysis_route true aoi pipeline = (400, []) := by
  unfold perform_analysis_route
  cases aoi with
  | none => rfl
  | some rings =>
    have hr : rings.isEmpty = true := h
    simp [hr]

/-- C6 witness: with an initialised backend, an absent aoi_coordinates and
    an empty list both give status 400 and an empty backend-call trace. -/
theorem missing_aoi_client_error_witness :
    aoi_is_falsy (none : Option (List Ring)) = true ∧
    perform_analysis_route true none (fun _ => (200, ["reduceRegion"])) = (400, []) ∧
    perform_analysis_route true (some []) (fun _ => (200, ["reduceRegion"])) = (400, []) :=
  ⟨rfl, missing_aoi_client_error none (fun _ => (200, ["reduceRegion"])) rfl,
   missing_aoi_client_error (some []) (fun _ => (200, ["reduceRegion"])) rfl⟩

/-- C10: when the backend failed to initialise, every request, those with
    a missing or empty aoi_coordinates included, gets the server error 500
    with no backend calls, and never the validation error 400: the
    sentinel check precedes the reading of the request body. -/
theorem backend_unavailable_precedes_validation (aoi : Option (List Ring))
    (pipeline : List Ring → Nat × List String) :
    perform_analysis_route false aoi pipeline = (500, []) ∧
    (perform_analysis_route false aoi pipeline).1 ≠ 400 := by
  constructor
  · rfl
  · intro h
    simp [perform_analysis_route] at h

end SolarFarm
